import Mathlib

/-!
# Verification of the agentDDS gateway's rate-limiting and subscription core

Shallow embedding of the Python sources `rate_limiter.py`, `mcp_gateway.py`
and `dds_manager_cyclone.py`.  Wall-clock time is made explicit: every
operation that reads `time.time()` in the source takes the relevant elapsed
time (or millisecond timestamp) as an argument.  Python floats are modelled
as rationals (`ℚ`); the claims under study are exact-arithmetic properties.
-/

/-! ## TokenBucket (`rate_limiter.py`, lines 27-86) -/

/-- State of `TokenBucket`: `rate` (tokens per second), `capacity`
(declared `int` in the constructor, stored unchanged), and the current
`tokens`.  `last_update` is replaced by passing `elapsed` to `consume`. -/
structure TokenBucket where
  rate : ℚ
  capacity : ℚ
  tokens : ℚ
deriving Repr, DecidableEq

/-- `TokenBucket.__init__`: the bucket starts full (`self.tokens = capacity`). -/
def TokenBucket.fresh (rate : ℚ) (capacity : ℤ) : TokenBucket :=
  { rate := rate, capacity := capacity, tokens := capacity }

/-- `TokenBucket.consume`: lazily refill (`tokens = min(capacity, tokens +
elapsed * rate)`), then test-and-subtract `n` tokens.  Returns the boolean
result together with the updated bucket. -/
def TokenBucket.consume (b : TokenBucket) (elapsed : ℚ) (n : ℚ) : Bool × TokenBucket :=
  let refilled := min b.capacity (b.tokens + elapsed * b.rate)
  if n ≤ refilled then
    (true, { b with tokens := refilled - n })
  else
    (false, { b with tokens := refilled })

/-- A unit-cost consumption with no elapsed time, as in the spec's
"immediately consecutive `consume(1)` calls" scenario. -/
def TokenBucket.consume1 (b : TokenBucket) : Bool × TokenBucket :=
  b.consume 0 1

/-- Bucket state after `k` immediately consecutive `consume(1)` calls. -/
def TokenBucket.afterConsume1s (b : TokenBucket) : ℕ → TokenBucket
  | 0 => b
  | k + 1 => (b.consume1.2).afterConsume1s k

/-- Number of successful calls among `k` immediately consecutive
`consume(1)` calls starting from `b`. -/
def TokenBucket.consume1Successes (b : TokenBucket) : ℕ → ℕ
  | 0 => 0
  | k + 1 => (if b.consume1.1 then 1 else 0) + (b.consume1.2).consume1Successes k

/-- One run of `consume` on a whole call sequence: each element of the list
is a pair `(elapsed, n)`.  Returns the final bucket. -/
def TokenBucket.consumeSeq (b : TokenBucket) : List (ℚ × ℚ) → TokenBucket
  | [] => b
  | c :: cs => ((b.consume c.1 c.2).2).consumeSeq cs

/-- The data-model invariant of the spec: `0 ≤ tokens ≤ capacity`. -/
def TokenBucket.Inv (b : TokenBucket) : Prop :=
  0 ≤ b.tokens ∧ b.tokens ≤ b.capacity

instance (b : TokenBucket) : Decidable b.Inv := by
  unfold TokenBucket.Inv; infer_instance

/-! ## Association-list model of Python dicts

`agent_limiters`, `agent_requests` and `agent_rejected` are Python dicts
keyed by agent name; `agent_requests`/`agent_rejected` are `defaultdict(int)`
(missing key reads as `0`).  They are modelled as association lists with
unique keys: `lookupD` is a read with default, `upsert` is `d[k] = v`. -/

/-- `d.get(k, default)` / `defaultdict` read. -/
def lookupD {α : Type} (m : List (String × α)) (k : String) (d : α) : α :=
  (m.lookup k).getD d

/-- `d[k] = v`: replace the binding of `k` if present, else append it. -/
def upsert {α : Type} : List (String × α) → String → α → List (String × α)
  | [], k, v => [(k, v)]
  | (k', v') :: rest, k, v =>
    if k' = k then (k, v) :: rest else (k', v') :: upsert rest k v

/-- `d[k] += 1` on a `defaultdict(int)`. -/
def bump (m : List (String × ℕ)) (k : String) : List (String × ℕ) :=
  upsert m k (lookupD m k 0 + 1)

/-! ## RateLimiter (`rate_limiter.py`, lines 141-310) -/

/-- `RateLimitConfig` (`rate_limiter.py`, lines 14-19). -/
structure RateLimitConfig where
  requestsPerMinute : ℤ
  burstSize : ℤ
  perAgentLimit : ℤ
deriving Repr, DecidableEq

/-- `RateLimiter` state.  `config` is kept only through the fields derived
from it in `__init__`; the counters are the metrics fields. -/
structure RateLimiter where
  enabled : Bool
  globalLimiter : TokenBucket
  perAgentRate : ℚ
  perAgentCapacity : ℤ
  agentLimiters : List (String × TokenBucket)
  totalRequests : ℕ
  totalRejected : ℕ
  agentRequests : List (String × ℕ)
  agentRejected : List (String × ℕ)
deriving Repr, DecidableEq

/-- `RateLimiter.__init__`: global bucket of rate `requests_per_minute / 60`
and capacity `burst_size`; per-agent rate `per_agent_limit / 60`; per-agent
capacity `int(burst_size / 2)`; empty agent maps and zero counters. -/
def RateLimiter.init (config : RateLimitConfig) : RateLimiter :=
  { enabled := true
    globalLimiter :=
      TokenBucket.fresh ((config.requestsPerMinute : ℚ) / 60) config.burstSize
    perAgentRate := (config.perAgentLimit : ℚ) / 60
    perAgentCapacity := config.burstSize / 2
    agentLimiters := []
    totalRequests := 0
    totalRejected := 0
    agentRequests := []
    agentRejected := [] }

/-- Outcome of `check_rate_limit`: return normally, or raise
`RateLimitExceeded` from the global or the per-agent check. -/
inductive RateLimitOutcome where
  | allowed
  | rejectedGlobal
  | rejectedAgent
deriving Repr, DecidableEq

/-- `RateLimiter.check_rate_limit(agent_name, tokens)` (lines 191-237).
`elapsedG`/`elapsedA` are the wall-clock times elapsed since the global
resp. the agent's bucket was last updated.  Disabled: immediate return
(before any counter is touched).  Enabled: count the request, consume from
the global bucket; on global rejection count the rejection and raise —
the per-agent map is untouched (`_get_agent_limiter` is only reached
afterwards).  Otherwise get-or-create the agent's bucket (lines 182-189),
consume from it, store it, and count a rejection iff it refused. -/
def RateLimiter.checkRateLimit (rl : RateLimiter) (agentName : String)
    (elapsedG elapsedA tokens : ℚ) : RateLimitOutcome × RateLimiter :=
  if rl.enabled = false then (.allowed, rl)
  else
    let rl1 := { rl with
      totalRequests := rl.totalRequests + 1
      agentRequests := bump rl.agentRequests agentName }
    let gres := rl1.globalLimiter.consume elapsedG tokens
    let rl2 := { rl1 with globalLimiter := gres.2 }
    if gres.1 = false then
      (.rejectedGlobal, { rl2 with
        totalRejected := rl2.totalRejected + 1
        agentRejected := bump rl2.agentRejected agentName })
    else
      let agentBucket := (rl2.agentLimiters.lookup agentName).getD
        (TokenBucket.fresh rl2.perAgentRate rl2.perAgentCapacity)
      let ares := agentBucket.consume elapsedA tokens
      let rl3 := { rl2 with
        agentLimiters := upsert rl2.agentLimiters agentName ares.2 }
      if ares.1 = false then
        (.rejectedAgent, { rl3 with
          totalRejected := rl3.totalRejected + 1
          agentRejected := bump rl3.agentRejected agentName })
      else
        (.allowed, rl3)

/-- `RateLimiter.disable` (lines 239-242): flips the flag, nothing else. -/
def RateLimiter.disable (rl : RateLimiter) : RateLimiter :=
  { rl with enabled := false }

/-- `RateLimiter.enable` (lines 244-247): flips the flag, nothing else. -/
def RateLimiter.enable (rl : RateLimiter) : RateLimiter :=
  { rl with enabled := true }

/-- The per-agent entry of `get_metrics`'s `agent_stats`. -/
structure AgentStats where
  requests : ℕ
  rejected : ℕ
  rejectionRate : ℚ
  tokensAvailable : ℚ
deriving Repr, DecidableEq

/-- The dictionary returned by `get_metrics`. -/
structure RateLimiterMetrics where
  enabled : Bool
  totalRequests : ℕ
  totalRejected : ℕ
  rejectionRate : ℚ
  globalTokensAvailable : ℚ
  globalCapacity : ℚ
  agentStats : List (String × AgentStats)
deriving Repr, DecidableEq

/-- `RateLimiter.get_metrics` (lines 249-281).  The rejection rates guard
division by a zero request count with an explicit conditional; `agent_stats`
ranges over `set(agent_requests.keys() + agent_limiters.keys())`, modelled
as the deduplicated concatenation of the two key lists. -/
def RateLimiter.getMetrics (rl : RateLimiter) : RateLimiterMetrics :=
  { enabled := rl.enabled
    totalRequests := rl.totalRequests
    totalRejected := rl.totalRejected
    rejectionRate :=
      if 0 < rl.totalRequests then (rl.totalRejected : ℚ) / rl.totalRequests else 0
    globalTokensAvailable := rl.globalLimiter.tokens
    globalCapacity := rl.globalLimiter.capacity
    agentStats :=
      ((rl.agentRequests.map Prod.fst ++ rl.agentLimiters.map Prod.fst).dedup).map
        fun agent =>
          let req := lookupD rl.agentRequests agent 0
          let rej := lookupD rl.agentRejected agent 0
          (agent,
            { requests := req
              rejected := rej
              rejectionRate := if 0 < req then (rej : ℚ) / req else 0
              tokensAvailable :=
                match rl.agentLimiters.lookup agent with
                | some b => b.tokens
                | none => 0 }) }

/-! ## AdaptiveRateLimiter (`rate_limiter.py`, lines 313-353) -/

/-- `AdaptiveRateLimiter`: a `RateLimiter` plus the retained base config
(only `requests_per_minute` is ever read back), the load threshold (0.8)
and the damping factor (0.9) set in `__init__`. -/
structure AdaptiveRateLimiter where
  toRateLimiter : RateLimiter
  baseRequestsPerMinute : ℤ
  loadThreshold : ℚ
  adjustmentFactor : ℚ
deriving Repr, DecidableEq

/-- `AdaptiveRateLimiter.__init__`. -/
def AdaptiveRateLimiter.init (config : RateLimitConfig) : AdaptiveRateLimiter :=
  { toRateLimiter := RateLimiter.init config
    baseRequestsPerMinute := config.requestsPerMinute
    loadThreshold := 4 / 5
    adjustmentFactor := 9 / 10 }

/-- `AdaptiveRateLimiter.adjust_limits(system_load)` (lines 327-353):
above the threshold, damp the global rate (`max(1.0, rate * 0.9)`); below
half the threshold, restore geometrically toward the original configured
rate (`min(original, rate * 1.1)`) but only when currently below it;
otherwise do nothing.  Only `global_limiter.rate` is ever assigned. -/
def AdaptiveRateLimiter.adjustLimits (a : AdaptiveRateLimiter)
    (systemLoad : ℚ) : AdaptiveRateLimiter :=
  if a.loadThreshold < systemLoad then
    let newRate := a.toRateLimiter.globalLimiter.rate * a.adjustmentFactor
    { a with toRateLimiter := { a.toRateLimiter with
        globalLimiter := { a.toRateLimiter.globalLimiter with
          rate := max 1 newRate } } }
  else if systemLoad < a.loadThreshold * (1 / 2) then
    let originalRate : ℚ := (a.baseRequestsPerMinute : ℚ) / 60
    if a.toRateLimiter.globalLimiter.rate < originalRate then
      { a with toRateLimiter := { a.toRateLimiter with
          globalLimiter := { a.toRateLimiter.globalLimiter with
            rate := min originalRate
              (a.toRateLimiter.globalLimiter.rate * (11 / 10)) } } }
    else a
  else a

/-! ## DDS manager: subscriptions (`dds_manager_cyclone.py`, lines 526-568) -/

/-- `SubscriptionHandle` (the fields relevant to the registry: topic name,
active flag, whether a callback was supplied; the reader object and the
callback body live outside the registry's state). -/
structure SubscriptionHandle where
  topicName : String
  active : Bool
  hasCallback : Bool
deriving Repr, DecidableEq

/-- The `CycloneDDSManager.subscriptions` dict. -/
structure DDSManagerState where
  subscriptions : List (String × SubscriptionHandle)
deriving Repr, DecidableEq

/-- `CycloneDDSManager.subscribe(topic_name, callback)` (lines 526-555):
the subscription ID is `f"{topic_name}_{int(time.time() * 1000)}"` —
`msTime` is that millisecond timestamp, made an explicit argument.  A new
handle (active by construction) is stored under the ID, overwriting any
existing entry with the same key. -/
def DDSManagerState.subscribe (st : DDSManagerState) (topicName : String)
    (msTime : ℤ) (hasCallback : Bool) : String × DDSManagerState :=
  let subscriptionId := topicName ++ "_" ++ toString msTime
  (subscriptionId,
    { subscriptions := upsert st.subscriptions subscriptionId
        { topicName := topicName, active := true, hasCallback := hasCallback } })

/-- `CycloneDDSManager.unsubscribe(subscription_id)` (lines 557-568): if the
ID is registered, deactivate the handle and delete the entry; otherwise do
nothing and return normally. -/
def DDSManagerState.unsubscribe (st : DDSManagerState)
    (subscriptionId : String) : DDSManagerState :=
  match st.subscriptions.lookup subscriptionId with
  | some _ =>
      { subscriptions := st.subscriptions.filter (fun p => !(p.1 == subscriptionId)) }
  | none => st

/-! ## MCP gateway handlers (`mcp_gateway.py`, lines 192-319)

The gateway holds a `gateway_config` (permission lookups and the
`max_samples_per_read` ceiling) and a `dds_manager`.  Each handler is
embedded as a function that also records, in order, the externally visible
checks and bus-adapter calls it performs, so that ordering claims about the
pipeline can be stated.  The event vocabulary includes a rate-limit check
so that its presence or absence in a handler's trace is expressible. -/

/-- Permission lookups (`config_manager`'s `can_agent_read_topic` /
`can_agent_write_topic`) and the read ceiling, as consumed by the gateway. -/
structure GatewayConfig where
  canAgentReadTopic : String → String → Bool
  canAgentWriteTopic : String → String → Bool
  maxSamplesPerRead : ℕ

/-- An externally visible step of a handler: a permission check (with its
kind and result), a rate-limit check, or a call into the bus adapter
(`dds_manager`), named by the method invoked. -/
inductive GatewayEvent where
  | permCheck (agentName topicName : String) (isWrite : Bool) (allowed : Bool)
  | rateCheck (agentName : String) (allowed : Bool)
  | busCall (method : String) (arg : String)
deriving Repr, DecidableEq

/-- A handler's result: the flat `{success, ...}` dictionary reduced to its
`success` discriminator, plus the ordered event trace. -/
structure HandlerOutcome where
  success : Bool
  trace : List GatewayEvent
deriving Repr, DecidableEq

/-- `MCPDDSGateway._handle_subscribe` (lines 192-226): check
`can_agent_read_topic`; on denial return `success: false` without touching
the bus; otherwise call `dds_manager.subscribe(topic_name)` and return
`success: true`. -/
def handleSubscribe (cfg : GatewayConfig) (agentName topicName : String) :
    HandlerOutcome :=
  let allowed := cfg.canAgentReadTopic agentName topicName
  if allowed then
    { success := true
      trace := [.permCheck agentName topicName false true,
                .busCall "subscribe" topicName] }
  else
    { success := false
      trace := [.permCheck agentName topicName false false] }

/-- `MCPDDSGateway._handle_read` (lines 228-265): check
`can_agent_read_topic`; clamp `max_samples` to the configured ceiling; call
`dds_manager.read_samples(topic_name, max_samples)`.  The clamped value is
recorded alongside the outcome. -/
def handleRead (cfg : GatewayConfig) (agentName topicName : String)
    (maxSamples : ℕ) : HandlerOutcome × ℕ :=
  let allowed := cfg.canAgentReadTopic agentName topicName
  if allowed then
    let clamped := if maxSamples > cfg.maxSamplesPerRead
      then cfg.maxSamplesPerRead else maxSamples
    ({ success := true
       trace := [.permCheck agentName topicName false true,
                 .busCall "read_samples" topicName] }, clamped)
  else
    ({ success := false
       trace := [.permCheck agentName topicName false false] }, 0)

/-- `MCPDDSGateway._handle_write` (lines 267-297): check
`can_agent_write_topic`; on success call
`dds_manager.write_sample(topic_name, data)`. -/
def handleWrite (cfg : GatewayConfig) (agentName topicName : String) :
    HandlerOutcome :=
  let allowed := cfg.canAgentWriteTopic agentName topicName
  if allowed then
    { success := true
      trace := [.permCheck agentName topicName true true,
                .busCall "write_sample" topicName] }
  else
    { success := false
      trace := [.permCheck agentName topicName true false] }

/-- `MCPDDSGateway._handle_unsubscribe` (lines 299-319): call
`dds_manager.unsubscribe(subscription_id)` (which never raises) and return
`success: true` with the ID. -/
def handleUnsubscribe (st : DDSManagerState) (subscriptionId : String) :
    HandlerOutcome × DDSManagerState :=
  ({ success := true
     trace := [.busCall "unsubscribe" subscriptionId] },
   st.unsubscribe subscriptionId)

/-- Is the event a rate-limit check? -/
def GatewayEvent.isRateCheck : GatewayEvent → Bool
  | .rateCheck _ _ => true
  | _ => false

/-- Is the event a bus-adapter call? -/
def GatewayEvent.isBusCall : GatewayEvent → Bool
  | .busCall _ _ => true
  | _ => false

/-- `everyBusCallAfterRateCheck tr seen = true` iff every bus-adapter call
in `tr` is preceded (in `tr`, or already by `seen`) by a rate-limit check:
the dispatch discipline claimed for the gateway pipeline. -/
def everyBusCallAfterRateCheck : List GatewayEvent → Bool → Bool
  | [], _ => true
  | e :: rest, seen =>
    if e.isBusCall then seen && everyBusCallAfterRateCheck rest seen
    else everyBusCallAfterRateCheck rest (seen || e.isRateCheck)

/-- A permissive configuration: every agent may read and write every topic,
read ceiling 10 (`max_samples_per_read`'s default). -/
def cfgAllowAll : GatewayConfig :=
  { canAgentReadTopic := fun _ _ => true
    canAgentWriteTopic := fun _ _ => true
    maxSamplesPerRead := 10 }

/-! # Theorems -/

/-! ## TokenBucket lemmas -/

lemma TokenBucket.consume_rate (b : TokenBucket) (e n : ℚ) :
    (b.consume e n).2.rate = b.rate := by
  unfold TokenBucket.consume
  dsimp only
  split <;> rfl

lemma TokenBucket.consume_capacity (b : TokenBucket) (e n : ℚ) :
    (b.consume e n).2.capacity = b.capacity := by
  unfold TokenBucket.consume
  dsimp only
  split <;> rfl

/-- One `consume` call preserves the invariant, provided the rate is
non-negative, the elapsed time is non-negative and the requested cost is
non-negative. -/
lemma TokenBucket.consume_inv (b : TokenBucket) (e n : ℚ)
    (hb : b.Inv) (hr : 0 ≤ b.rate) (he : 0 ≤ e) (hn : 0 ≤ n) :
    (b.consume e n).2.Inv := by
  obtain ⟨h0, hc⟩ := hb
  have hcap0 : (0 : ℚ) ≤ b.capacity := le_trans h0 hc
  have hrefill0 : 0 ≤ min b.capacity (b.tokens + e * b.rate) := by
    apply le_min hcap0
    have : 0 ≤ e * b.rate := mul_nonneg he hr
    linarith
  have hrefillc : min b.capacity (b.tokens + e * b.rate) ≤ b.capacity :=
    min_le_left _ _
  unfold TokenBucket.consume
  dsimp only
  split
  · rename_i hle
    constructor
    · simpa using sub_nonneg.mpr hle
    · simp only
      linarith
  · exact ⟨hrefill0, hrefillc⟩

/-- Net effect of one `consume1` call on a bucket holding a whole number
`m` of tokens, `m ≤ capacity`: the refill with `elapsed = 0` leaves the
token count unchanged, then one token is subtracted iff `1 ≤ m`. -/
lemma TokenBucket.consume1_spec (b : TokenBucket) (m : ℕ)
    (hm : b.tokens = m) (hc : (m : ℚ) ≤ b.capacity) :
    b.consume1 = (decide (1 ≤ m), { b with tokens := ((m - 1 : ℕ) : ℚ) }) := by
  have hrefill : min b.capacity (b.tokens + 0 * b.rate) = (m : ℚ) := by
    rw [hm, zero_mul, add_zero]
    exact min_eq_right hc
  unfold TokenBucket.consume1 TokenBucket.consume
  dsimp only
  rw [hrefill]
  by_cases h1 : 1 ≤ m
  · have hcast : ((m : ℚ)) - 1 = ((m - 1 : ℕ) : ℚ) := by
      push_cast [h1]; ring
    rw [if_pos (by exact_mod_cast h1), decide_eq_true h1, hcast]
  · have hm0 : m = 0 := by omega
    subst hm0
    rw [if_neg (by norm_num)]
    simp

/-- After `k` immediately consecutive `consume1` calls on a bucket holding
a whole number `m ≤ capacity` of tokens: exactly `min k m` calls succeeded,
the bucket holds `m - k` (truncated) tokens, and rate and capacity are
unchanged. -/
lemma TokenBucket.consume1_run (k : ℕ) :
    ∀ (b : TokenBucket) (m : ℕ), b.tokens = m → (m : ℚ) ≤ b.capacity →
      b.consume1Successes k = min k m ∧
      b.afterConsume1s k = { b with tokens := ((m - k : ℕ) : ℚ) } := by
  induction k with
  | zero =>
    intro b m hm _
    refine ⟨by simp [consume1Successes], ?_⟩
    simp [afterConsume1s, ← hm]
  | succ k ih =>
    intro b m hm hc
    have hstep := TokenBucket.consume1_spec b m hm hc
    have hc' : ((m - 1 : ℕ) : ℚ) ≤ b.capacity :=
      le_trans (by exact_mod_cast Nat.sub_le m 1) hc
    obtain ⟨ihcnt, ihst⟩ :=
      ih { b with tokens := ((m - 1 : ℕ) : ℚ) } (m - 1) rfl hc'
    constructor
    · rw [consume1Successes, hstep]
      dsimp only
      rw [ihcnt]
      by_cases h1 : 1 ≤ m
      · rw [decide_eq_true h1]
        simp only [if_true]
        omega
      · have hm0 : m = 0 := by omega
        subst hm0
        simp
    · rw [afterConsume1s, hstep]
      dsimp only
      rw [ihst]
      have : m - 1 - k = m - (k + 1) := by omega
      rw [this]

/-! ## Claim C3 -/

/-- C3: a freshly created `TokenBucket` with (integer) capacity `C ≥ 0` and
any rate admits exactly `C` immediately consecutive `consume(1)` calls —
among any `k` such calls exactly `min k C` succeed — and the call after the
`C`-th one returns `false`.  (`capacity` is declared `int` in
`TokenBucket.__init__`, so `floor(capacity) = capacity`.) -/
theorem fresh_bucket_admits_exactly_capacity (r : ℚ) (C : ℤ) (hC : 0 ≤ C) :
    (∀ k : ℕ, (TokenBucket.fresh r C).consume1Successes k = min k C.toNat) ∧
    ((TokenBucket.fresh r C).afterConsume1s C.toNat).consume1.1 = false := by
  have htok : (TokenBucket.fresh r C).tokens = (C.toNat : ℚ) := by
    show ((C : ℚ)) = (C.toNat : ℚ)
    exact_mod_cast (Int.toNat_of_nonneg hC).symm
  have hcap : ((C.toNat : ℕ) : ℚ) ≤ (TokenBucket.fresh r C).capacity := by
    show ((C.toNat : ℕ) : ℚ) ≤ (C : ℚ)
    exact_mod_cast le_of_eq (Int.toNat_of_nonneg hC)
  constructor
  · intro k
    exact (TokenBucket.consume1_run k (TokenBucket.fresh r C) C.toNat htok hcap).1
  · have hrun :=
      (TokenBucket.consume1_run C.toNat (TokenBucket.fresh r C) C.toNat htok hcap).2
    rw [hrun]
    have hspec := TokenBucket.consume1_spec
      { TokenBucket.fresh r C with tokens := ((C.toNat - C.toNat : ℕ) : ℚ) } 0
      (by simp) (by simpa using le_trans (by exact_mod_cast Nat.zero_le C.toNat) hcap)
    rw [hspec]
    rfl

/-- Witness for C3 at rate 1, capacity 10: among 11 consecutive unit
consumptions exactly 10 succeed, and the call after the 10th fails. -/
theorem fresh_bucket_admits_exactly_capacity_witness :
    ((∀ k : ℕ, (TokenBucket.fresh 1 10).consume1Successes k = min k (Int.toNat 10)) ∧
      ((TokenBucket.fresh 1 10).afterConsume1s (Int.toNat 10)).consume1.1 = false) :=
  fresh_bucket_admits_exactly_capacity 1 10 (by norm_num)

/-! ## Claim C4 -/

/-- C4: the data-model invariant `0 ≤ tokens ≤ capacity` holds after every
`consume` call, for every bucket that satisfies it (in particular a fresh
one), every non-negative rate, and every sequence of calls with arbitrary
non-negative elapsed times and non-negative costs; the lazy refill never
raises `tokens` above `capacity` however long the bucket sat idle.  The
state after any intermediate call is the final state of a prefix of `cs`,
which the quantifier over `cs` covers. -/
theorem tokenBucket_invariant_all_calls (cs : List (ℚ × ℚ)) :
    ∀ b : TokenBucket, b.Inv → 0 ≤ b.rate →
      (∀ c ∈ cs, 0 ≤ c.1 ∧ 0 ≤ c.2) → (b.consumeSeq cs).Inv := by
  induction cs with
  | nil =>
    intro b hb _ _
    simpa [TokenBucket.consumeSeq] using hb
  | cons c cs ih =>
    intro b hb hr hcs
    rw [TokenBucket.consumeSeq]
    have hc := hcs c (List.mem_cons_self c cs)
    refine ih _ (b.consume_inv c.1 c.2 hb hr hc.1 hc.2) ?_ ?_
    · rw [TokenBucket.consume_rate]
      exact hr
    · intro d hd
      exact hcs d (List.mem_cons_of_mem c hd)

/-- Witness for C4: a fresh bucket of rate 1, capacity 10 driven through a
burst, a long idle period (10^6 s) and further consumptions keeps the
invariant. -/
theorem tokenBucket_invariant_all_calls_witness :
    ((TokenBucket.fresh 1 10).consumeSeq
      [(0, 1), (0, 20), (1000000, 3), (2, 1)]).Inv :=
  tokenBucket_invariant_all_calls [(0, 1), (0, 20), (1000000, 3), (2, 1)]
    (TokenBucket.fresh 1 10)
    (by constructor <;> norm_num [TokenBucket.fresh])
    (by norm_num [TokenBucket.fresh])
    (by intro c hc; fin_cases hc <;> norm_num)

/-- On a successful `consume`, the resulting token count is exactly the
post-refill value minus the requested cost. -/
lemma TokenBucket.consume_true_tokens (b : TokenBucket) (e n : ℚ)
    (h : (b.consume e n).1 = true) :
    (b.consume e n).2.tokens = min b.capacity (b.tokens + e * b.rate) - n := by
  unfold TokenBucket.consume at h ⊢
  dsimp only at h ⊢
  by_cases hle : n ≤ min b.capacity (b.tokens + e * b.rate)
  · rw [if_pos hle]
  · rw [if_neg hle] at h
    cases h

/-! ## Claim C2 -/

/-- C2: with the limiter enabled, when the global bucket rejects the
requested tokens, `check_rate_limit` raises the global-scope
`RateLimitExceeded` and the final state shows: the request counters
incremented, the global bucket updated (refill only), **both** rejection
counters incremented, and the per-agent bucket map untouched — no agent
bucket is consulted, consumed or created. -/
theorem global_rejection_spares_agent_bucket (rl : RateLimiter)
    (agentName : String) (eG eA t : ℚ) (hen : rl.enabled = true)
    (hrej : (rl.globalLimiter.consume eG t).1 = false) :
    rl.checkRateLimit agentName eG eA t =
      (.rejectedGlobal,
        { rl with
          totalRequests := rl.totalRequests + 1
          agentRequests := bump rl.agentRequests agentName
          globalLimiter := (rl.globalLimiter.consume eG t).2
          totalRejected := rl.totalRejected + 1
          agentRejected := bump rl.agentRejected agentName }) := by
  unfold RateLimiter.checkRateLimit
  rw [hen]
  simp [hrej]

/-- Witness for C2: a limiter whose global bucket is empty (capacity 0)
rejects globally, leaves `agent_limiters` empty, and counts the rejection
for the agent. -/
theorem global_rejection_spares_agent_bucket_witness :
    (RateLimiter.mk true (TokenBucket.mk 1 0 0) 1 5 [] 0 0 [] []).checkRateLimit
        "alice" 0 0 1 =
      (.rejectedGlobal,
        { RateLimiter.mk true (TokenBucket.mk 1 0 0) 1 5 [] 0 0 [] [] with
          totalRequests := (RateLimiter.mk true (TokenBucket.mk 1 0 0) 1 5 [] 0 0 [] []).totalRequests + 1
          agentRequests := bump [] "alice"
          globalLimiter := ((TokenBucket.mk 1 0 0).consume 0 1).2
          totalRejected := (RateLimiter.mk true (TokenBucket.mk 1 0 0) 1 5 [] 0 0 [] []).totalRejected + 1
          agentRejected := bump [] "alice" }) :=
  global_rejection_spares_agent_bucket
    (RateLimiter.mk true (TokenBucket.mk 1 0 0) 1 5 [] 0 0 [] []) "alice" 0 0 1
    rfl (by norm_num [TokenBucket.consume, min_def])

/-! ## Claim C5 -/

/-- C5: with the limiter enabled, when the global bucket admits but the
per-agent bucket rejects, the call raises the agent-scope
`RateLimitExceeded`, and the global tokens already consumed are not
refunded: the global bucket in the final state is exactly the post-consume
bucket, whose token count is the post-refill value minus the requested
tokens. -/
theorem agent_rejection_keeps_global_consumption (rl : RateLimiter)
    (agentName : String) (eG eA t : ℚ) (hen : rl.enabled = true)
    (hG : (rl.globalLimiter.consume eG t).1 = true)
    (hA : (((rl.agentLimiters.lookup agentName).getD
        (TokenBucket.fresh rl.perAgentRate rl.perAgentCapacity)).consume eA t).1
          = false) :
    (rl.checkRateLimit agentName eG eA t).1 = .rejectedAgent ∧
    (rl.checkRateLimit agentName eG eA t).2.globalLimiter =
      (rl.globalLimiter.consume eG t).2 ∧
    (rl.checkRateLimit agentName eG eA t).2.globalLimiter.tokens =
      min rl.globalLimiter.capacity
        (rl.globalLimiter.tokens + eG * rl.globalLimiter.rate) - t := by
  have hred : rl.checkRateLimit agentName eG eA t =
      (.rejectedAgent,
        { rl with
          totalRequests := rl.totalRequests + 1
          agentRequests := bump rl.agentRequests agentName
          globalLimiter := (rl.globalLimiter.consume eG t).2
          agentLimiters := upsert rl.agentLimiters agentName
            (((rl.agentLimiters.lookup agentName).getD
              (TokenBucket.fresh rl.perAgentRate rl.perAgentCapacity)).consume eA t).2
          totalRejected := rl.totalRejected + 1
          agentRejected := bump rl.agentRejected agentName }) := by
    unfold RateLimiter.checkRateLimit
    rw [hen]
    simp [hG, hA]
  refine ⟨by rw [hred], by rw [hred], ?_⟩
  rw [hred]
  exact rl.globalLimiter.consume_true_tokens eG t hG

/-- Witness for C5: global bucket full at capacity 10; the (fresh) agent
bucket has capacity 0 and rejects; the global bucket ends with 9 = 10 - 1
tokens, not refunded. -/
theorem agent_rejection_keeps_global_consumption_witness :
    ((RateLimiter.mk true (TokenBucket.mk 1 10 10) 1 0 [] 0 0 [] []).checkRateLimit
        "alice" 0 0 1).1 = .rejectedAgent ∧
    ((RateLimiter.mk true (TokenBucket.mk 1 10 10) 1 0 [] 0 0 [] []).checkRateLimit
        "alice" 0 0 1).2.globalLimiter = ((TokenBucket.mk 1 10 10).consume 0 1).2 ∧
    ((RateLimiter.mk true (TokenBucket.mk 1 10 10) 1 0 [] 0 0 [] []).checkRateLimit
        "alice" 0 0 1).2.globalLimiter.tokens = min 10 (10 + 0 * 1) - 1 :=
  agent_rejection_keeps_global_consumption
    (RateLimiter.mk true (TokenBucket.mk 1 10 10) 1 0 [] 0 0 [] []) "alice" 0 0 1
    rfl
    (by norm_num [TokenBucket.consume, min_def])
    (by norm_num [TokenBucket.consume, TokenBucket.fresh, min_def, List.lookup])

/-! ## Claim C6 (corrected) -/

/-- C6 as stated is false on the code: `check_rate_limit` returns *before*
touching any counter when the limiter is disabled (`if not self.enabled:
return` precedes `self.total_requests += 1`).  Concretely, a freshly
initialized limiter that is disabled has `total_requests = 0` after a
check, not `0 + 1` as the claim's "request counters are still incremented"
requires. -/
theorem disabled_check_counts_requests_cex :
    ¬ (((RateLimiter.init ⟨1000, 100, 500⟩).disable.checkRateLimit
          "alice" 0 0 1).2.totalRequests =
        (RateLimiter.init ⟨1000, 100, 500⟩).disable.totalRequests + 1) := by
  decide

/-- C6 amended: while the limiter is disabled, `check_rate_limit` returns
without raising and changes nothing at all — no tokens are consumed from
any bucket and *no* counter (request or rejection) is incremented; and
`enable`/`disable` only flip the flag, so re-enabling resumes enforcement
against the buckets' accumulated state with no implicit reset. -/
theorem disabled_check_is_complete_noop (rl : RateLimiter)
    (agentName : String) (eG eA t : ℚ) (hdis : rl.enabled = false) :
    rl.checkRateLimit agentName eG eA t = (.allowed, rl) ∧
    rl.enable = { rl with enabled := true } ∧
    rl.disable = { rl with enabled := false } := by
  refine ⟨?_, rfl, rfl⟩
  unfold RateLimiter.checkRateLimit
  rw [hdis]
  simp

/-- Witness for C6 (amended) on a disabled fresh limiter. -/
theorem disabled_check_is_complete_noop_witness :
    (RateLimiter.init ⟨1000, 100, 500⟩).disable.checkRateLimit "bob" 0 0 1 =
        (.allowed, (RateLimiter.init ⟨1000, 100, 500⟩).disable) ∧
    (RateLimiter.init ⟨1000, 100, 500⟩).disable.enable =
        { (RateLimiter.init ⟨1000, 100, 500⟩).disable with enabled := true } ∧
    (RateLimiter.init ⟨1000, 100, 500⟩).disable.disable =
        { (RateLimiter.init ⟨1000, 100, 500⟩).disable with enabled := false } :=
  disabled_check_is_complete_noop
    (RateLimiter.init ⟨1000, 100, 500⟩).disable "bob" 0 0 1 rfl

/-! ## Claim C9 -/

/-- C9: for an `AdaptiveRateLimiter` carrying the thresholds its
`__init__` sets (`load_threshold = 0.8`, `adjustment_factor = 0.9`),
`adjust_limits(load)` sets the global rate to `max(1.0, rate * 0.9)` when
`load > 0.8`, to `min(original_rate, rate * 1.1)` when `load < 0.4` and
the current rate is below the originally configured
`requests_per_minute / 60`; and in all cases the per-agent buckets — the
whole `agent_limiters` map as well as the per-agent rate and capacity
parameters — are untouched. -/
theorem adjustLimits_spec (a : AdaptiveRateLimiter) (load : ℚ)
    (hth : a.loadThreshold = 4 / 5) (hf : a.adjustmentFactor = 9 / 10) :
    ((4 / 5 : ℚ) < load →
      (a.adjustLimits load).toRateLimiter.globalLimiter.rate =
        max 1 (a.toRateLimiter.globalLimiter.rate * (9 / 10))) ∧
    (load < 2 / 5 →
      a.toRateLimiter.globalLimiter.rate < (a.baseRequestsPerMinute : ℚ) / 60 →
      (a.adjustLimits load).toRateLimiter.globalLimiter.rate =
        min ((a.baseRequestsPerMinute : ℚ) / 60)
          (a.toRateLimiter.globalLimiter.rate * (11 / 10))) ∧
    (a.adjustLimits load).toRateLimiter.agentLimiters =
      a.toRateLimiter.agentLimiters ∧
    (a.adjustLimits load).toRateLimiter.perAgentRate =
      a.toRateLimiter.perAgentRate ∧
    (a.adjustLimits load).toRateLimiter.perAgentCapacity =
      a.toRateLimiter.perAgentCapacity := by
  refine ⟨?_, ?_, ?_, ?_, ?_⟩
  · intro hload
    unfold AdaptiveRateLimiter.adjustLimits
    rw [if_pos (by rw [hth]; exact hload), hf]
  · intro hload hbelow
    unfold AdaptiveRateLimiter.adjustLimits
    rw [if_neg (by rw [hth]; linarith),
        if_pos (by rw [hth]; linarith),
        if_pos hbelow]
  all_goals
    simp only [AdaptiveRateLimiter.adjustLimits]
    split_ifs <;> rfl

/-- Witness for C9 on `AdaptiveRateLimiter(RateLimitConfig(60, 10, 30))`
(global rate 1): load 0.9 damps the rate to `max 1 (1 * 0.9)`, and a
low-load call touches no per-agent state. -/
theorem adjustLimits_spec_witness :
    (((4 / 5 : ℚ) < 9 / 10 →
      ((AdaptiveRateLimiter.init ⟨60, 10, 30⟩).adjustLimits
          (9 / 10)).toRateLimiter.globalLimiter.rate =
        max 1 ((AdaptiveRateLimiter.init ⟨60, 10, 30⟩).toRateLimiter.globalLimiter.rate * (9 / 10))) ∧
    ((9 / 10 : ℚ) < 2 / 5 →
      (AdaptiveRateLimiter.init ⟨60, 10, 30⟩).toRateLimiter.globalLimiter.rate <
        ((AdaptiveRateLimiter.init ⟨60, 10, 30⟩).baseRequestsPerMinute : ℚ) / 60 →
      ((AdaptiveRateLimiter.init ⟨60, 10, 30⟩).adjustLimits
          (9 / 10)).toRateLimiter.globalLimiter.rate =
        min (((AdaptiveRateLimiter.init ⟨60, 10, 30⟩).baseRequestsPerMinute : ℚ) / 60)
          ((AdaptiveRateLimiter.init ⟨60, 10, 30⟩).toRateLimiter.globalLimiter.rate * (11 / 10))) ∧
    ((AdaptiveRateLimiter.init ⟨60, 10, 30⟩).adjustLimits
        (9 / 10)).toRateLimiter.agentLimiters =
      (AdaptiveRateLimiter.init ⟨60, 10, 30⟩).toRateLimiter.agentLimiters ∧
    ((AdaptiveRateLimiter.init ⟨60, 10, 30⟩).adjustLimits
        (9 / 10)).toRateLimiter.perAgentRate =
      (AdaptiveRateLimiter.init ⟨60, 10, 30⟩).toRateLimiter.perAgentRate ∧
    ((AdaptiveRateLimiter.init ⟨60, 10, 30⟩).adjustLimits
        (9 / 10)).toRateLimiter.perAgentCapacity =
      (AdaptiveRateLimiter.init ⟨60, 10, 30⟩).toRateLimiter.perAgentCapacity) :=
  adjustLimits_spec (AdaptiveRateLimiter.init ⟨60, 10, 30⟩) (9 / 10) rfl rfl

/-! ## Claim C10 -/

/-- C10: `get_metrics` is total on every limiter state, and its guarded
divisions behave as coded: the overall `rejection_rate` is
`total_rejected / total_requests` when `total_requests > 0` and exactly 0
when `total_requests = 0`; likewise every per-agent entry with a zero
request count reports rate 0 (no division by zero on a fresh or reset
limiter). -/
theorem getMetrics_rejection_rates (rl : RateLimiter) :
    (rl.totalRequests = 0 → rl.getMetrics.rejectionRate = 0) ∧
    (0 < rl.totalRequests →
      rl.getMetrics.rejectionRate = (rl.totalRejected : ℚ) / rl.totalRequests) ∧
    (∀ p ∈ rl.getMetrics.agentStats, p.2.requests = 0 → p.2.rejectionRate = 0) := by
  refine ⟨?_, ?_, ?_⟩
  · intro h0
    unfold RateLimiter.getMetrics
    simp [h0]
  · intro hpos
    unfold RateLimiter.getMetrics
    simp [hpos]
  · intro p hp
    unfold RateLimiter.getMetrics at hp
    simp only [List.mem_map] at hp
    obtain ⟨agent, -, rfl⟩ := hp
    dsimp only
    intro h
    rw [h]
    norm_num

/-! ## Claim C1 (corrected) -/

/-- C1 as stated is false on the code: the gateway's handlers never invoke
`RateLimiter.check_rate_limit` (no rate-limit check appears anywhere in
`mcp_gateway.py`'s pipeline).  Concretely, under a fully permissive
configuration a `read` dispatches to the bus adapter with a bus call that
no rate-limit check precedes, and indeed its trace contains a bus call and
no rate-limit event at all. -/
theorem gateway_read_dispatches_without_rate_check_cex :
    everyBusCallAfterRateCheck
        (handleRead cfgAllowAll "alice" "SensorTopic" 5).1.trace false = false ∧
    (handleRead cfgAllowAll "alice" "SensorTopic" 5).1.trace.any
        GatewayEvent.isBusCall = true ∧
    (handleRead cfgAllowAll "alice" "SensorTopic" 5).1.trace.any
        GatewayEvent.isRateCheck = false := by
  refine ⟨rfl, rfl, rfl⟩

/-- C1 amended: every inbound gateway operation (subscribe, read, write)
performs the permission check first and dispatches to the bus adapter only
when it passes — the bus adapter is never invoked on an operation that has
not passed the permission check — and no rate-limit check is performed
anywhere in the handlers (`check_rate_limit` has no caller in the
gateway). -/
theorem gateway_handlers_perm_check_then_dispatch (cfg : GatewayConfig)
    (agentName topicName : String) (maxSamples : ℕ) :
    (handleSubscribe cfg agentName topicName).trace =
      cond (cfg.canAgentReadTopic agentName topicName)
        [.permCheck agentName topicName false true, .busCall "subscribe" topicName]
        [.permCheck agentName topicName false false] ∧
    (handleRead cfg agentName topicName maxSamples).1.trace =
      cond (cfg.canAgentReadTopic agentName topicName)
        [.permCheck agentName topicName false true, .busCall "read_samples" topicName]
        [.permCheck agentName topicName false false] ∧
    (handleWrite cfg agentName topicName).trace =
      cond (cfg.canAgentWriteTopic agentName topicName)
        [.permCheck agentName topicName true true, .busCall "write_sample" topicName]
        [.permCheck agentName topicName true false] ∧
    (handleSubscribe cfg agentName topicName).trace.any
      GatewayEvent.isRateCheck = false ∧
    (handleRead cfg agentName topicName maxSamples).1.trace.any
      GatewayEvent.isRateCheck = false ∧
    (handleWrite cfg agentName topicName).trace.any
      GatewayEvent.isRateCheck = false := by
  refine ⟨?_, ?_, ?_, ?_, ?_, ?_⟩
  · cases h : cfg.canAgentReadTopic agentName topicName <;>
      simp [handleSubscribe, h]
  · cases h : cfg.canAgentReadTopic agentName topicName <;>
      simp [handleRead, h]
  · cases h : cfg.canAgentWriteTopic agentName topicName <;>
      simp [handleWrite, h]
  · cases h : cfg.canAgentReadTopic agentName topicName <;>
      simp [handleSubscribe, h, GatewayEvent.isRateCheck]
  · cases h : cfg.canAgentReadTopic agentName topicName <;>
      simp [handleRead, h, GatewayEvent.isRateCheck]
  · cases h : cfg.canAgentWriteTopic agentName topicName <;>
      simp [handleWrite, h, GatewayEvent.isRateCheck]

/-! ## Claim C7 (code bug) -/

/-- C7: the spec requires subscription IDs to be unique across all
`subscribe` calls, but the ID is `f"{topic}_{int(time.time() * 1000)}"`:
two `subscribe` calls for the same topic within the same wall-clock
millisecond return the *same* ID, and the second registration overwrites
the first in the `subscriptions` dict (the registry holds one entry, the
first subscription is silently lost). -/
theorem dds_subscribe_id_collision :
    ((DDSManagerState.mk []).subscribe "SensorTopic" 1712345678901 false).1 =
      (((DDSManagerState.mk []).subscribe "SensorTopic" 1712345678901 false).2.subscribe
        "SensorTopic" 1712345678901 false).1 ∧
    (((DDSManagerState.mk []).subscribe "SensorTopic" 1712345678901 false).2.subscribe
        "SensorTopic" 1712345678901 false).2.subscriptions.length = 1 := by
  exact ⟨rfl, by decide⟩

/-! ## Claim C8 -/

/-- C8: unsubscribing an ID that is not in the registry succeeds — the
gateway handler returns `success: true` and no exception is raised (the
manager's `unsubscribe` simply does nothing when the ID is unknown) — and
the registry, hence every other subscription's state, is left completely
unchanged. -/
theorem unsubscribe_unknown_id_noop (st : DDSManagerState) (sid : String)
    (h : st.subscriptions.lookup sid = none) :
    handleUnsubscribe st sid =
      ({ success := true, trace := [.busCall "unsubscribe" sid] }, st) := by
  unfold handleUnsubscribe DDSManagerState.unsubscribe
  rw [h]

/-- Witness for C8: a registry holding one active subscription is returned
unchanged when an unknown ID is unsubscribed. -/
theorem unsubscribe_unknown_id_noop_witness :
    handleUnsubscribe
        (DDSManagerState.mk [("TopicA_100", ⟨"TopicA", true, false⟩)]) "unknown_id" =
      ({ success := true, trace := [.busCall "unsubscribe" "unknown_id"] },
        DDSManagerState.mk [("TopicA_100", ⟨"TopicA", true, false⟩)]) :=
  unsubscribe_unknown_id_noop
    (DDSManagerState.mk [("TopicA_100", ⟨"TopicA", true, false⟩)]) "unknown_id"
    (by decide)
